import Mathlib

/-!
Shallow embedding of the OpenMenuStandard (OMS) core: the data model
(`types.rs`), the validators (`validation.rs`), the pricing engine
(`utils.rs::calculate_price_adjustments`), the document facade
(`document.rs`) and the deep-link URL helpers (`url.rs`).

Conventions of the embedding:
* Rust `f64` monetary/numeric values are modelled as `ℚ`.  All arithmetic
  performed by the modelled functions (sums, products, comparisons against
  the literal tolerance `0.01`) is carried out exactly; the source decimal
  literals are exactly representable in `ℚ`.
* Rust `u32` is modelled as `Nat` (the code only compares and converts it).
* `Option` models Rust `Option`; `Except OmsError` models `OmsResult`.
* A Rust function that can panic (`unwrap` on `None`, `unreachable!`) is
  modelled with result type `Option (Except OmsError Unit)` where `none`
  marks the panic and `some r` the returned value.
* Rust `HashMap` built by repeated `insert` is modelled by association-list
  lookup where the *last* binding for a key wins, matching `HashMap::insert`
  overwrite semantics.
* Unread sub-structures of the source (`Nutrition`, `Availability`,
  `Popularity`, nested component items, timestamps, extension payloads) are
  elided or kept as opaque `String` data: no modelled operation inspects
  them.
-/

namespace OMS

/-- Error type of the library (`lib.rs::OmsError`).  The
`validator::ValidationErrors::new()` value used for undetailed validation
failures carries no data, so `validationError` is a bare constructor.
Numeric values interpolated into messages are rendered with `ℚ`'s
`toString`; only the constructor and the constant message frames are relied
upon by theorems. -/
inductive OmsError where
  | serializationError (msg : String)
  | validationError
  | invalidCustomizationType (msg : String)
  | invalidVendorType (msg : String)
  | urlError (msg : String)
  | invalidOmsUrl (msg : String)
  | missingRequiredField (msg : String)
  | invalidFieldValue (msg : String)
  | ioError (msg : String)
  | unknown (msg : String)
  deriving DecidableEq, Repr

/-- Model of `types.rs::CustomizationType`. -/
inductive CustomizationType where
  | singleSelect
  | multiSelect
  | quantity
  | boolean
  | text
  | range
  deriving DecidableEq, Repr

/-- Model of `types.rs::CustomizationDefault` (untagged union of the JSON shapes). -/
inductive CustomizationDefault where
  | string (s : String)
  | stringArray (l : List String)
  | number (q : ℚ)
  | boolean (b : Bool)
  deriving DecidableEq, Repr

/-- Model of `types.rs::CustomizationSelection`. -/
inductive CustomizationSelection where
  | string (s : String)
  | stringArray (l : List String)
  | number (q : ℚ)
  | boolean (b : Bool)
  deriving DecidableEq, Repr

/-- Model of `types.rs::CustomizationOption`.  `nutrition_adjustments` is elided
(no modelled operation reads it). -/
structure CustomizationOption where
  id : String
  name : String
  price_adjustment : Option ℚ
  allergens : Option (List String)
  dietary_flags : Option (List String)
  deriving DecidableEq, Repr

/-- Model of `types.rs::Customization`.  `unit_nutrition_adjustments` is elided. -/
structure Customization where
  id : String
  name : String
  type : CustomizationType
  required : Bool
  default : CustomizationDefault
  min_selections : Option Nat
  max_selections : Option Nat
  min : Option ℚ
  max : Option ℚ
  step : Option ℚ
  unit_price_adjustment : Option ℚ
  options : Option (List CustomizationOption)
  deriving DecidableEq, Repr

/-- Model of `types.rs::SelectedCustomization`. -/
structure SelectedCustomization where
  customization_id : String
  selection : CustomizationSelection
  deriving DecidableEq, Repr

/-- Model of `types.rs::CalculatedValues`.  `adjusted_nutrition` is elided. -/
structure CalculatedValues where
  item_price : ℚ
  deriving DecidableEq, Repr

/-- Model of `types.rs::Item`.  `nutrition`, `availability`, `popularity` and the
recursive `components` list are elided: no modelled operation reads them
(`validate_document` and `calculate_total_price` only walk the top-level
item list). -/
structure Item where
  id : String
  name : String
  category : String
  vendor_id : Option String
  description : Option String
  subcategory : Option String
  image_url : Option String
  base_price : Option ℚ
  currency : Option String
  customizations : Option (List Customization)
  selected_customizations : Option (List SelectedCustomization)
  quantity : Option Nat
  item_note : Option String
  calculated : Option CalculatedValues
  deriving DecidableEq, Repr

/-- Model of `types.rs::OrderStatus`. -/
inductive OrderStatus where
  | draft
  | submitted
  | confirmed
  | inProgress
  | ready
  | completed
  | cancelled
  deriving DecidableEq, Repr

/-- Model of `types.rs::OrderType`. -/
inductive OrderType where
  | pickup
  | delivery
  | dineIn
  deriving DecidableEq, Repr

/-- Model of `types.rs::PaymentStatus`. -/
inductive PaymentStatus where
  | unpaid
  | paid
  deriving DecidableEq, Repr

/-- Model of `types.rs::Payment`. -/
structure Payment where
  status : Option PaymentStatus
  method : Option String
  subtotal : Option ℚ
  tax : Option ℚ
  tip : Option ℚ
  total : ℚ
  currency : String
  deriving DecidableEq, Repr

/-- Model of `types.rs::Address`. -/
structure Address where
  street : String
  city : String
  region : String
  postal_code : String
  country : String
  deriving DecidableEq, Repr

/-- Model of `types.rs::Customer`. -/
structure Customer where
  id : Option String
  name : Option String
  phone : Option String
  email : Option String
  deriving DecidableEq, Repr

/-- Model of `types.rs::Delivery`. -/
structure Delivery where
  address : Address
  instructions : Option String
  deriving DecidableEq, Repr

/-- Model of `types.rs::Order`.  Timestamps (`created`, `pickup_time`,
`delivery_time`) are kept as opaque strings: nothing modelled reads them. -/
structure Order where
  id : Option String
  status : Option OrderStatus
  created : Option String
  pickup_time : Option String
  delivery_time : Option String
  type : Option OrderType
  customer_notes : Option String
  payment : Option Payment
  customer : Option Customer
  delivery : Option Delivery
  deriving DecidableEq, Repr

/-- Model of `types.rs::Metadata` (timestamps kept opaque). -/
structure Metadata where
  created : String
  source : String
  locale : String
  deriving DecidableEq, Repr

/-- Model of `types.rs::Vendor`.  `address`, `contact`, `hours` are elided
(unread by modelled operations); list-valued extras kept. -/
structure Vendor where
  id : String
  name : String
  type : String
  location_id : Option String
  location_name : Option String
  cuisine : Option (List String)
  services : Option (List String)
  deriving DecidableEq, Repr

/-- Model of `types.rs::OmsDocument`.  The extension map (namespace → opaque JSON
value) is modelled as an association list of opaque string payloads. -/
structure OmsDocument where
  oms_version : String
  metadata : Metadata
  vendor : Vendor
  items : List Item
  order : Option Order
  extensions : Option (List (String × String))
  deriving DecidableEq, Repr

/-- Lookup in a `HashMap` built by inserting every element of `l` keyed by
`key`: the last insertion for a given key wins, so we search the reversed
list.  Models `HashMap::insert`/`get` in
`validation.rs::validate_selected_customizations` and the
`collect::<HashMap<_,_>>()` in `utils.rs::calculate_price_adjustments`. -/
def lookupById (customizations : List Customization) (cid : String) :
    Option Customization :=
  customizations.reverse.find? (fun c => c.id = cid)

/-- Monetary delta contributed by one selection
(`utils.rs::calculate_price_adjustments` loop body).  An unresolved
`customization_id` contributes `0` (the `continue`), as does a selection
value whose variant does not match the customization type (the `if let`
falling through), an absent options list, an unmatched option id, and an
absent `price_adjustment` / `unit_price_adjustment`. -/
def selectionDelta (customizations : List Customization)
    (sel : SelectedCustomization) : ℚ :=
  match lookupById customizations sel.customization_id with
  | none => 0
  | some c =>
    match c.type with
    | .singleSelect =>
      match sel.selection with
      | .string selected_id =>
        match c.options with
        | some options =>
          match options.find? (fun opt => opt.id = selected_id) with
          | some opt => opt.price_adjustment.getD 0
          | none => 0
        | none => 0
      | _ => 0
    | .multiSelect =>
      match sel.selection with
      | .stringArray selected_ids =>
        match c.options with
        | some options =>
          (selected_ids.map (fun selected_id =>
            match options.find? (fun opt => opt.id = selected_id) with
            | some opt => opt.price_adjustment.getD 0
            | none => 0)).sum
        | none => 0
      | _ => 0
    | .quantity =>
      match sel.selection with
      | .number q => (c.unit_price_adjustment.getD 0) * q
      | _ => 0
    | _ => 0

/-- Model of `utils.rs::calculate_price_adjustments`: folds the `total_adjustment`
accumulator over the selected customizations (mutable `total_adjustment`
modelled by the `foldl` accumulator); always returns `Ok`. -/
def calculate_price_adjustments (item : Item)
    (selected : List SelectedCustomization) : Except OmsError ℚ :=
  match item.customizations with
  | none => .ok 0
  | some customizations =>
    .ok (selected.foldl
      (fun total_adjustment sel =>
        total_adjustment + selectionDelta customizations sel) 0)

/-- Model of `f64::abs`, modelled on `ℚ`. -/
def ratAbs (q : ℚ) : ℚ :=
  if q < 0 then -q else q

/-- Validation of one customization definition: the body of the loop in
`validation.rs::validate_customizations` (lines 42-190).  The `none` result
models the `unreachable!` at line 109 — the wildcard arm of the inner
re-match on `customization.r#type` inside the
`SingleSelect | MultiSelect` outer arm.  The Rust guard
`options.is_none() || options.unwrap().is_empty()` is modelled by the
match on `c.options` followed by the `isEmpty` test; both produce the same
"missing required field" error.  Numeric message fragments use `ℚ`'s
`toString` where Rust formats an `f64`. -/
def validateCustomization (c : Customization) : Option (Except OmsError Unit) :=
  match c.type with
  | .singleSelect | .multiSelect =>
    match c.options with
    | none =>
      some (.error (.missingRequiredField ("options for customization " ++ c.id)))
    | some options =>
      if options.isEmpty then
        some (.error (.missingRequiredField ("options for customization " ++ c.id)))
      else
        match c.type with
        | .singleSelect =>
          match c.default with
          | .string default_id =>
            if options.any (fun opt => opt.id = default_id) then
              some (.ok ())
            else
              some (.error (.invalidFieldValue
                ("default value '" ++ default_id ++
                  "' not found in options for customization " ++ c.id)))
          | _ =>
            some (.error (.invalidFieldValue
              ("default value type mismatch for single_select customization " ++ c.id)))
        | .multiSelect =>
          match c.default with
          | .stringArray default_ids =>
            match default_ids.find?
                (fun default_id => ! options.any (fun opt => opt.id = default_id)) with
            | some default_id =>
              some (.error (.invalidFieldValue
                ("default value '" ++ default_id ++
                  "' not found in options for customization " ++ c.id)))
            | none =>
              let maxCheck : Option (Except OmsError Unit) :=
                match c.max_selections with
                | some mx =>
                  if mx < default_ids.length then
                    some (.error (.invalidFieldValue
                      ("default selections count is greater than max_selections for customization "
                        ++ c.id)))
                  else some (.ok ())
                | none => some (.ok ())
              match c.min_selections with
              | some mn =>
                if default_ids.length < mn then
                  some (.error (.invalidFieldValue
                    ("default selections count is less than min_selections for customization "
                      ++ c.id)))
                else maxCheck
              | none => maxCheck
          | _ =>
            some (.error (.invalidFieldValue
              ("default value type mismatch for multi_select customization " ++ c.id)))
        | _ => none
  | .quantity =>
    match c.default with
    | .number value =>
      match c.min with
      | some mn =>
        if value < mn then
          some (.error (.invalidFieldValue
            ("default value " ++ toString value ++ " is less than min " ++ toString mn ++
              " for customization " ++ c.id)))
        else
          match c.max with
          | some mx =>
            if mx < value then
              some (.error (.invalidFieldValue
                ("default value " ++ toString value ++ " is greater than max " ++ toString mx ++
                  " for customization " ++ c.id)))
            else some (.ok ())
          | none => some (.ok ())
      | none =>
        match c.max with
        | some mx =>
          if mx < value then
            some (.error (.invalidFieldValue
              ("default value " ++ toString value ++ " is greater than max " ++ toString mx ++
                " for customization " ++ c.id)))
          else some (.ok ())
        | none => some (.ok ())
    | _ =>
      some (.error (.invalidFieldValue
        ("default value type mismatch for quantity customization " ++ c.id)))
  | .boolean =>
    match c.default with
    | .boolean _ => some (.ok ())
    | _ =>
      some (.error (.invalidFieldValue
        ("default value type mismatch for boolean customization " ++ c.id)))
  | .text =>
    match c.default with
    | .string _ => some (.ok ())
    | _ =>
      some (.error (.invalidFieldValue
        ("default value type mismatch for text customization " ++ c.id)))
  | .range =>
    match c.default with
    | .number value =>
      match c.min with
      | some mn =>
        if value < mn then
          some (.error (.invalidFieldValue
            ("default value " ++ toString value ++ " is less than min " ++ toString mn ++
              " for customization " ++ c.id)))
        else
          match c.max with
          | some mx =>
            if mx < value then
              some (.error (.invalidFieldValue
                ("default value " ++ toString value ++ " is greater than max " ++ toString mx ++
                  " for customization " ++ c.id)))
            else some (.ok ())
          | none => some (.ok ())
      | none =>
        match c.max with
        | some mx =>
          if mx < value then
            some (.error (.invalidFieldValue
              ("default value " ++ toString value ++ " is greater than max " ++ toString mx ++
                " for customization " ++ c.id)))
          else some (.ok ())
        | none => some (.ok ())
    | _ =>
      some (.error (.invalidFieldValue
        ("default value type mismatch for range customization " ++ c.id)))

/-- Model of `validation.rs::validate_customizations`: validates each definition in
list order, returning the first error (or propagating a panic). -/
def validate_customizations : List Customization → Option (Except OmsError Unit)
  | [] => some (.ok ())
  | c :: rest =>
    match validateCustomization c with
    | some (.ok ()) => validate_customizations rest
    | r => r

/-- Phase 1 of `validation.rs::validate_selected_customizations`
(lines 208-217): every `required` customization must appear by id among the
selections; the first violation is returned. -/
def checkRequired (selected : List SelectedCustomization) :
    List Customization → Option (Except OmsError Unit)
  | [] => some (.ok ())
  | c :: rest =>
    if c.required && ! selected.any (fun sel => sel.customization_id = c.id) then
      some (.error (.missingRequiredField
        ("required customization " ++ c.id ++ " not selected")))
    else
      checkRequired selected rest

/-- Validation of one selection against the available definitions: the body
of the second loop of `validation.rs::validate_selected_customizations`
(lines 220-364).  The `none` results model the `options.as_ref().unwrap()`
panics at lines 236 and 254 when a Select-kind customization has no options
list. -/
def checkSelection (available : List Customization)
    (selection : SelectedCustomization) : Option (Except OmsError Unit) :=
  match lookupById available selection.customization_id with
  | none =>
    some (.error (.invalidFieldValue
      ("selected customization " ++ selection.customization_id ++
        " not found in available customizations")))
  | some c =>
    match c.type with
    | .singleSelect =>
      match selection.selection with
      | .string selected_id =>
        match c.options with
        | none => none
        | some options =>
          if options.any (fun opt => opt.id = selected_id) then
            some (.ok ())
          else
            some (.error (.invalidFieldValue
              ("selected value '" ++ selected_id ++
                "' not found in options for customization " ++ c.id)))
      | _ =>
        some (.error (.invalidFieldValue
          ("selection type mismatch for single_select customization " ++ c.id)))
    | .multiSelect =>
      match selection.selection with
      | .stringArray selected_ids =>
        match c.options with
        | none => none
        | some options =>
          match selected_ids.find?
              (fun selected_id => ! options.any (fun opt => opt.id = selected_id)) with
          | some selected_id =>
            some (.error (.invalidFieldValue
              ("selected value '" ++ selected_id ++
                "' not found in options for customization " ++ c.id)))
          | none =>
            let maxCheck : Option (Except OmsError Unit) :=
              match c.max_selections with
              | some mx =>
                if mx < selected_ids.length then
                  some (.error (.invalidFieldValue
                    ("selections count is greater than max_selections for customization "
                      ++ c.id)))
                else some (.ok ())
              | none => some (.ok ())
            match c.min_selections with
            | some mn =>
              if selected_ids.length < mn then
                some (.error (.invalidFieldValue
                  ("selections count is less than min_selections for customization "
                    ++ c.id)))
              else maxCheck
            | none => maxCheck
      | _ =>
        some (.error (.invalidFieldValue
          ("selection type mismatch for multi_select customization " ++ c.id)))
    | .quantity =>
      match selection.selection with
      | .number value =>
        match c.min with
        | some mn =>
          if value < mn then
            some (.error (.invalidFieldValue
              ("selected value " ++ toString value ++ " is less than min " ++ toString mn ++
                " for customization " ++ c.id)))
          else
            match c.max with
            | some mx =>
              if mx < value then
                some (.error (.invalidFieldValue
                  ("selected value " ++ toString value ++ " is greater than max " ++
                    toString mx ++ " for customization " ++ c.id)))
              else some (.ok ())
            | none => some (.ok ())
        | none =>
          match c.max with
          | some mx =>
            if mx < value then
              some (.error (.invalidFieldValue
                ("selected value " ++ toString value ++ " is greater than max " ++
                  toString mx ++ " for customization " ++ c.id)))
            else some (.ok ())
          | none => some (.ok ())
      | _ =>
        some (.error (.invalidFieldValue
          ("selection type mismatch for quantity customization " ++ c.id)))
    | .boolean =>
      match selection.selection with
      | .boolean _ => some (.ok ())
      | _ =>
        some (.error (.invalidFieldValue
          ("selection type mismatch for boolean customization " ++ c.id)))
    | .text =>
      match selection.selection with
      | .string _ => some (.ok ())
      | _ =>
        some (.error (.invalidFieldValue
          ("selection type mismatch for text customization " ++ c.id)))
    | .range =>
      match selection.selection with
      | .number value =>
        match c.min with
        | some mn =>
          if value < mn then
            some (.error (.invalidFieldValue
              ("selected value " ++ toString value ++ " is less than min " ++ toString mn ++
                " for customization " ++ c.id)))
          else
            match c.max with
            | some mx =>
              if mx < value then
                some (.error (.invalidFieldValue
                  ("selected value " ++ toString value ++ " is greater than max " ++
                    toString mx ++ " for customization " ++ c.id)))
              else some (.ok ())
            | none => some (.ok ())
        | none =>
          match c.max with
          | some mx =>
            if mx < value then
              some (.error (.invalidFieldValue
                ("selected value " ++ toString value ++ " is greater than max " ++
                  toString mx ++ " for customization " ++ c.id)))
            else some (.ok ())
          | none => some (.ok ())
      | _ =>
        some (.error (.invalidFieldValue
          ("selection type mismatch for range customization " ++ c.id)))

/-- Phase 2 of `validation.rs::validate_selected_customizations`: validates
each selection in list order, fail-fast. -/
def validateSelections (available : List Customization) :
    List SelectedCustomization → Option (Except OmsError Unit)
  | [] => some (.ok ())
  | selection :: rest =>
    match checkSelection available selection with
    | some (.ok ()) => validateSelections available rest
    | r => r

/-- Model of `validation.rs::validate_selected_customizations`: the completeness
phase over `available` runs first, then the per-selection correctness
phase. -/
def validate_selected_customizations (selected : List SelectedCustomization)
    (available : List Customization) : Option (Except OmsError Unit) :=
  match checkRequired selected available with
  | some (.ok ()) => validateSelections available selected
  | r => r

/-- The payment block of `validation.rs::validate_order` (lines 377-395). -/
def paymentCheck (payment : Payment) : Except OmsError Unit :=
  if payment.total ≤ 0 then
    .error (.invalidFieldValue "payment total must be greater than zero")
  else
    match payment.subtotal, payment.tax, payment.tip with
    | some subtotal, some tax, some tip =>
      let calculated_total := subtotal + tax + tip
      if ratAbs (calculated_total - payment.total) > 1 / 100 then
        .error (.invalidFieldValue
          ("payment components (subtotal + tax + tip = " ++ toString calculated_total ++
            ") do not add up to total (" ++ toString payment.total ++ ")"))
      else
        .ok ()
    | _, _, _ => .ok ()

/-- Model of `validation.rs::validate_order`: empty-items guard, payment block,
delivery/type coupling (delivery-payload check at lines 398-407 before the
Delivery-type check at lines 410-416).  No branch can panic. -/
def validate_order (order : Order) (items : List Item) : Except OmsError Unit :=
  if items.isEmpty then
    .error .validationError
  else
    match ((match order.payment with
            | some payment => paymentCheck payment
            | none => .ok ()) : Except OmsError Unit) with
    | .error e => .error e
    | .ok () =>
      match ((match order.delivery with
              | some _ =>
                match order.type with
                | some order_type =>
                  if order_type ≠ OrderType.delivery then
                    .error (.invalidFieldValue
                      "order.type must be 'delivery' when delivery information is provided")
                  else .ok ()
                | none => .ok ()
              | none => .ok ()) : Except OmsError Unit) with
      | .error e => .error e
      | .ok () =>
        match order.type with
        | some .delivery =>
          if order.delivery.isNone then
            .error (.missingRequiredField
              "delivery information is required for delivery orders")
          else .ok ()
        | _ => .ok ()

/-- The per-item body of the loop in `validation.rs::validate_document`
(lines 17-30): definition validation first, then selection validation; an
item with selections but no customization list yields the undetailed
`ValidationError`. -/
def validateItem (item : Item) : Option (Except OmsError Unit) :=
  match (match item.customizations with
         | some customizations => validate_customizations customizations
         | none => some (.ok ())) with
  | some (.ok ()) =>
    match item.selected_customizations with
    | some selected =>
      match item.customizations with
      | some available => validate_selected_customizations selected available
      | none => some (.error .validationError)
    | none => some (.ok ())
  | r => r

/-- The item loop of `validation.rs::validate_document`, fail-fast. -/
def validateItems : List Item → Option (Except OmsError Unit)
  | [] => some (.ok ())
  | item :: rest =>
    match validateItem item with
    | some (.ok ()) => validateItems rest
    | r => r

/-- Model of `validation.rs::validate_document`: empty-document guard, the item
loop, then order validation when an order is present. -/
def validate_document (document : OmsDocument) : Option (Except OmsError Unit) :=
  if document.items.isEmpty then
    some (.error .validationError)
  else
    match validateItems document.items with
    | some (.ok ()) =>
      match document.order with
      | some order =>
        match validate_order order document.items with
        | .ok () => some (.ok ())
        | .error e => some (.error e)
      | none => some (.ok ())
    | r => r

/-- Per-item unit price used by `document.rs::calculate_total_price`
(lines 70-80): `calculated.item_price` when present, else `base_price`
defaulting to `0`. -/
def itemUnitPrice (item : Item) : ℚ :=
  match item.calculated with
  | some cv => cv.item_price
  | none => item.base_price.getD 0

/-- Model of `document.rs::calculate_total_price`: folds
`unit price × quantity (default 1)` over the items, then returns the sum
only when it is strictly positive. -/
def calculate_total_price (document : OmsDocument) : Option ℚ :=
  let items_total :=
    document.items.foldl
      (fun acc item => acc + itemUnitPrice item * (item.quantity.getD 1 : ℚ)) 0
  if 0 < items_total then some items_total else none

/-- Model of `document.rs::OmsDocument::from_json`: deserialize, then validate, then
hand the document to the caller.  `serde_json::from_str` is an external
collaborator (spec §1/§6 exclude JSON decoding itself), so the structural
parser is a parameter; the modelled content is the composition with
`validate_document` at the construction boundary. -/
def from_json (parse : String → Except OmsError OmsDocument) (json : String) :
    Option (Except OmsError OmsDocument) :=
  match parse json with
  | .error e => some (.error e)
  | .ok document =>
    match validate_document document with
    | some (.ok ()) => some (.ok document)
    | some (.error e) => some (.error e)
    | none => none

/-- Model of `lib.rs::OMS_URL_SCHEME`. -/
def OMS_URL_SCHEME : String := "omenu://"

/-- Model of `url.rs::create_oms_url`: string concatenation of scheme, action and
query parameters; always returns `Ok`. -/
def create_oms_url (action : String) (vendor_id : String)
    (location_id : Option String) (item_id : Option String)
    (customization_id : Option String) : Except OmsError String :=
  let url := OMS_URL_SCHEME ++ action ++ "?v=" ++ vendor_id
  let url := url ++ (match location_id with
                     | some location => "&l=" ++ location
                     | none => "")
  let url := url ++ (match item_id with
                     | some item => "&i=" ++ item
                     | none => "")
  let url := url ++ (match customization_id with
                     | some customization => "&c=" ++ customization
                     | none => "")
  .ok url

/-- Model of `url.rs::create_order_url`. -/
def create_order_url (vendor_id : String) (item_id : String)
    (location_id : Option String) (customization_id : Option String) :
    Except OmsError String :=
  create_oms_url "order" vendor_id location_id (some item_id) customization_id

/-- Model of `HashMap::insert` on the string-keyed parameter map, modelled as an
association list with unique keys: an existing binding for the key is
replaced. -/
def insertParam (params : List (String × String)) (k v : String) :
    List (String × String) :=
  params.filter (fun p => p.1 ≠ k) ++ [(k, v)]

/-- Lookup in the parameter map built by `insertParam`. -/
def lookupParam (params : List (String × String)) (k : String) : Option String :=
  (params.find? (fun p => p.1 = k)).map (fun p => p.2)

/-- Split a character list at every occurrence of the separator, keeping
empty pieces: the behaviour of Rust's `str::split` with a `char` pattern
(used via `split('?')` in `parse_oms_url`). -/
def splitChars (sep : Char) : List Char → List (List Char)
  | [] => [[]]
  | ch :: rest =>
    let r := splitChars sep rest
    if ch = sep then [] :: r
    else
      match r with
      | [] => [[ch]]
      | g :: gs => (ch :: g) :: gs

/-- Model of `str::split` with a `char` pattern, on `String`. -/
def splitOnChar (s : String) (sep : Char) : List String :=
  (splitChars sep s.toList).map (fun l => String.mk l)

/-- Model of `str::starts_with`, character by character. -/
def charsStartWith : List Char → List Char → Bool
  | _, [] => true
  | [], _ :: _ => false
  | c :: cs, p :: ps => if c = p then charsStartWith cs ps else false

/-- Join pieces with a separator (inverse of `splitOnChar` on its output). -/
def joinWith (sep : String) : List String → String
  | [] => ""
  | [s] => s
  | s :: rest => s ++ sep ++ joinWith sep rest

/-- The `url` crate's `query_pairs()` on the query portion, for inputs
without percent-encoding: split on `&`, each non-empty pair split at the
first `=` (a pair with no `=` gets the empty value).  Percent-decoding is
the identity on every input considered here. -/
def parseQueryPairs (query : String) : List (String × String) :=
  (splitOnChar query '&').filterMap (fun pair =>
    if pair = "" then none
    else
      match splitOnChar pair '=' with
      | [] => none
      | k :: rest => some (k, joinWith "=" rest))

/-- Model of `url.rs::parse_oms_url`: reject a non-`omenu://` prefix, take the
action from the path segment (text before the first `?`), seed the map with
it, then insert every query pair verbatim. -/
def parse_oms_url (url : String) : Except OmsError (List (String × String)) :=
  if ! charsStartWith url.toList OMS_URL_SCHEME.toList then
    .error (.invalidOmsUrl ("URL must start with " ++ OMS_URL_SCHEME))
  else
    let without_scheme := String.mk (url.toList.drop OMS_URL_SCHEME.length)
    let parts := splitOnChar without_scheme '?'
    let action := parts.headD ""
    let params := insertParam [] "action" action
    let query := joinWith "?" parts.tail
    .ok ((parseQueryPairs query).foldl (fun m p => insertParam m p.1 p.2) params)

/-- Constructor-by-constructor decidable equality for `Except` results. -/
instance {e a : Type} [DecidableEq e] [DecidableEq a] :
    DecidableEq (Except e a)
  | .ok x, .ok y =>
    if h : x = y then .isTrue (by rw [h])
    else .isFalse (fun hh => by cases hh; exact h rfl)
  | .ok _, .error _ => .isFalse (fun hh => by cases hh)
  | .error _, .ok _ => .isFalse (fun hh => by cases hh)
  | .error x, .error y =>
    if h : x = y then .isTrue (by rw [h])
    else .isFalse (fun hh => by cases hh; exact h rfl)

/-! ### Concrete fixtures

Data mirroring the spec's worked pricing example (§8) and the test fixtures
of `validation.rs`/`document.rs`, used to instantiate the theorems below. -/

/-- Option `small` with price delta −0.50. -/
def optSmall : CustomizationOption :=
  ⟨"small", "Small", some (-(1/2 : ℚ)), none, none⟩

/-- Option `medium` with price delta 0. -/
def optMedium : CustomizationOption :=
  ⟨"medium", "Medium", some 0, none, none⟩

/-- Option `large` with price delta +0.50. -/
def optLarge : CustomizationOption :=
  ⟨"large", "Large", some (1/2 : ℚ), none, none⟩

/-- Option `almond` with price delta +0.75. -/
def optAlmond : CustomizationOption :=
  ⟨"almond", "Almond", some (3/4 : ℚ), none, none⟩

/-- Customization `size`: single-select over small/medium/large. -/
def custSize : Customization :=
  { id := "size", name := "Size", type := .singleSelect, required := true,
    default := .string "medium", min_selections := none, max_selections := none,
    min := none, max := none, step := none, unit_price_adjustment := none,
    options := some [optSmall, optMedium, optLarge] }

/-- Customization `milk`: single-select with the single option almond. -/
def custMilk : Customization :=
  { id := "milk", name := "Milk", type := .singleSelect, required := false,
    default := .string "almond", min_selections := none, max_selections := none,
    min := none, max := none, step := none, unit_price_adjustment := none,
    options := some [optAlmond] }

/-- Customization `shots`: quantity with `unit_price_adjustment` 0.75. -/
def custShots : Customization :=
  { id := "shots", name := "Shots", type := .quantity, required := false,
    default := .number 1, min_selections := none, max_selections := none,
    min := some 0, max := some 5, step := some 1,
    unit_price_adjustment := some (3/4 : ℚ), options := none }

/-- An item carrying the three example customizations. -/
def exampleItem : Item :=
  { id := "latte", name := "Latte", category := "drinks", vendor_id := none,
    description := none, subcategory := none, image_url := none,
    base_price := some 4, currency := some "USD",
    customizations := some [custSize, custMilk, custShots],
    selected_customizations := none, quantity := some 1, item_note := none,
    calculated := none }

/-- The example selections: size=large, milk=almond, shots=3. -/
def exampleSelections : List SelectedCustomization :=
  [⟨"size", .string "large"⟩, ⟨"milk", .string "almond"⟩, ⟨"shots", .number 3⟩]

/-- A plain item with a base price and no customizations. -/
def plainItem : Item :=
  { id := "item1", name := "Item 1", category := "test", vendor_id := none,
    description := none, subcategory := none, image_url := none,
    base_price := some 10, currency := some "USD",
    customizations := none, selected_customizations := none,
    quantity := some 1, item_note := none, calculated := none }

/-- An item with neither base price nor calculated price. -/
def pricelessItem : Item :=
  { id := "item2", name := "Item 2", category := "test", vendor_id := none,
    description := none, subcategory := none, image_url := none,
    base_price := none, currency := none,
    customizations := none, selected_customizations := none,
    quantity := none, item_note := none, calculated := none }

/-- An item that presents selections (an empty list) while defining no
customizations. -/
def offendingItem : Item :=
  { pricelessItem with selected_customizations := some [] }

/-- Example metadata record. -/
def exampleMetadata : Metadata :=
  ⟨"2025-01-01T00:00:00Z", "test", "en-US"⟩

/-- Example vendor record. -/
def exampleVendor : Vendor :=
  { id := "test-vendor", name := "Test Restaurant", type := "restaurant",
    location_id := none, location_name := none, cuisine := none,
    services := none }

/-- A semantically valid document (one plain item, no order). -/
def exampleDoc : OmsDocument :=
  { oms_version := "1.0", metadata := exampleMetadata, vendor := exampleVendor,
    items := [plainItem], order := none, extensions := none }

/-- An order with no payment, no delivery and no type set. -/
def emptyOrder : Order :=
  { id := none, status := none, created := none, pickup_time := none,
    delivery_time := none, type := none, customer_notes := none,
    payment := none, customer := none, delivery := none }

/-- The example delivery payload. -/
def exampleDelivery : Delivery :=
  ⟨⟨"123 Main St", "Anytown", "State", "12345", "USA"⟩, none⟩

/-- A payment record with the given components and total. -/
def mkPayment (subtotal tax tip : Option ℚ) (total : ℚ) : Payment :=
  { status := some .unpaid, method := none, subtotal := subtotal,
    tax := tax, tip := tip, total := total, currency := "USD" }

/-- A single-select definition with no options list: fails the existence
check ("missing required field") of the Definition Validator. -/
def custNoOptions : Customization :=
  { id := "c0", name := "C0", type := .singleSelect, required := false,
    default := .string "a", min_selections := none, max_selections := none,
    min := none, max := none, step := none, unit_price_adjustment := none,
    options := none }

/-- A quantity definition whose default 0 violates `min = 1`: fails a
numeric bounds check ("invalid field value"). -/
def custBadBounds : Customization :=
  { id := "c1", name := "C1", type := .quantity, required := false,
    default := .number 0, min_selections := none, max_selections := none,
    min := some 1, max := none, step := none, unit_price_adjustment := none,
    options := none }

/-- A Delivery-typed order carrying a delivery payload and no payment. -/
def deliveryOrder : Order :=
  { id := none, status := none, created := none, pickup_time := none,
    delivery_time := none, type := some OrderType.delivery,
    customer_notes := none, payment := none, customer := none,
    delivery := some exampleDelivery }

/-- The delivery/type coupling condition enforced by
`validation.rs::validate_order` (lines 398-416): a Delivery-typed order
must carry a delivery payload, and a delivery payload together with a set
type forces that type to be Delivery (a payload with no type is fine). -/
def deliveryCouplingOk (order : Order) : Prop :=
  (order.type = some OrderType.delivery → order.delivery.isSome = true) ∧
  (∀ t : OrderType, order.delivery.isSome = true → order.type = some t →
    t = OrderType.delivery)

/-- The payment block of `validate_order` succeeds (vacuously when the
order carries no payment). -/
def paymentStageOk (order : Order) : Prop :=
  ∀ payment : Payment, order.payment = some payment →
    paymentCheck payment = Except.ok ()

/-! ### Helper lemmas -/

/-- Folding `+ f x` starting from `a` is `a` plus the sum of the images:
bridges the accumulator loop of the source to a per-element sum. -/
theorem foldl_add_eq_sum {α : Type} (f : α → ℚ) (l : List α) (a : ℚ) :
    l.foldl (fun acc x => acc + f x) a = a + (l.map f).sum := by
  induction l generalizing a with
  | nil => simp
  | cons x xs ih => simp [ih, add_assoc]

/-- Characterization of the payment block: it succeeds exactly when the
total is strictly positive and, whenever subtotal, tax and tip are all
present, their sum is within the absolute tolerance 0.01 of the total. -/
theorem paymentCheck_ok_iff (payment : Payment) :
    paymentCheck payment = Except.ok () ↔
      (0 < payment.total ∧
        ∀ subtotal tax tip : ℚ, payment.subtotal = some subtotal →
          payment.tax = some tax → payment.tip = some tip →
          ratAbs (subtotal + tax + tip - payment.total) ≤ 1 / 100) := by
  constructor
  · intro h
    by_cases htot : payment.total ≤ 0
    · simp only [paymentCheck, if_pos htot] at h
      cases h
    · refine ⟨lt_of_not_le htot, ?_⟩
      intro subtotal tax tip hs ht hp
      simp only [paymentCheck, if_neg htot, hs, ht, hp] at h
      by_contra hgt
      push_neg at hgt
      rw [if_pos hgt] at h
      cases h
  · rintro ⟨hpos, hcomp⟩
    have htot : ¬ payment.total ≤ 0 := not_le.mpr hpos
    simp only [paymentCheck, if_neg htot]
    rcases hs : payment.subtotal with _ | subtotal
    · simp [hs]
    · rcases ht : payment.tax with _ | tax
      · simp [hs, ht]
      · rcases hp : payment.tip with _ | tip
        · simp [hs, ht, hp]
        · simp only [hs, ht, hp]
          rw [if_neg (not_lt.mpr (hcomp subtotal tax tip hs ht hp))]

/-- Under a nonempty item list and a satisfied delivery/type coupling,
`validate_order` reduces to its payment block. -/
theorem validate_order_coupling_ok (order : Order) (items : List Item)
    (hitems : items ≠ []) (hcoup : deliveryCouplingOk order) :
    validate_order order items =
      (match order.payment with
       | some payment => paymentCheck payment
       | none => Except.ok ()) := by
  obtain ⟨h1, h2⟩ := hcoup
  have hne : ¬ (items.isEmpty = true) := by
    simp [List.isEmpty_iff, hitems]
  simp only [validate_order, if_neg hne]
  cases hpc : (match order.payment with
               | some payment => paymentCheck payment
               | none => Except.ok ()) with
  | error e => simp
  | ok u =>
    cases u
    simp only []
    rcases hdel : order.delivery with _ | d <;>
      rcases htyp : order.type with _ | t
    · simp [hdel, htyp]
    · cases t
      · simp [hdel, htyp]
      · exact absurd (h1 htyp) (by simp [hdel])
      · simp [hdel, htyp]
    · simp [hdel, htyp]
    · have := h2 t (by simp [hdel]) htyp
      subst this
      simp [hdel, htyp]

/-! ### C1 — pricing adjustment engine -/

/-- C1.  `calculate_price_adjustments` never errors and returns the sum,
over the selected customizations, of the per-selection delta
`selectionDelta`: `0` for a `customization_id` that does not resolve
against the item's customization list, `unit_price_adjustment` (default 0)
times the full selected numeric value for a Quantity customization, `0`
for Boolean/Text/Range, and the matched options' price deltas for the two
Select kinds (embodied in `selectionDelta`); on the spec's worked example
(size=large, milk=almond, shots=3) the delta is 3.50.  The function is
pure, so the item is never mutated. -/
theorem C1_calculate_price_adjustments :
    (∀ (item : Item) (selected : List SelectedCustomization)
        (customizations : List Customization),
        item.customizations = some customizations →
        calculate_price_adjustments item selected =
          .ok ((selected.map (selectionDelta customizations)).sum)) ∧
    (∀ (item : Item) (selected : List SelectedCustomization),
        item.customizations = none →
        calculate_price_adjustments item selected = .ok 0) ∧
    (∀ (customizations : List Customization) (sel : SelectedCustomization),
        lookupById customizations sel.customization_id = none →
        selectionDelta customizations sel = 0) ∧
    (∀ (customizations : List Customization) (sel : SelectedCustomization)
        (c : Customization) (q : ℚ),
        lookupById customizations sel.customization_id = some c →
        c.type = .quantity → sel.selection = .number q →
        selectionDelta customizations sel = c.unit_price_adjustment.getD 0 * q) ∧
    (∀ (customizations : List Customization) (sel : SelectedCustomization)
        (c : Customization),
        lookupById customizations sel.customization_id = some c →
        (c.type = .boolean ∨ c.type = .text ∨ c.type = .range) →
        selectionDelta customizations sel = 0) ∧
    calculate_price_adjustments exampleItem exampleSelections = .ok (7/2) := by
  refine ⟨?_, ?_, ?_, ?_, ?_, ?_⟩
  · intro item selected customizations h
    simp only [calculate_price_adjustments, h]
    rw [foldl_add_eq_sum]
    simp
  · intro item selected h
    simp [calculate_price_adjustments, h]
  · intro customizations sel h
    simp [selectionDelta, h]
  · intro customizations sel c q hlookup htype hsel
    simp [selectionDelta, hlookup, htype, hsel]
  · intro customizations sel c hlookup htype
    rcases htype with h | h | h <;> simp [selectionDelta, hlookup, h]
  · simp [calculate_price_adjustments, exampleItem, exampleSelections, selectionDelta,
      lookupById, custSize, custMilk, custShots, optSmall, optMedium, optLarge,
      optAlmond, List.find?]
    norm_num

/-- Witness for C1: the general characterization instantiated on the
worked example, with the `customizations`-resolution hypothesis discharged
definitionally. -/
theorem C1_calculate_price_adjustments_witness :
    calculate_price_adjustments exampleItem exampleSelections =
      .ok ((exampleSelections.map
        (selectionDelta [custSize, custMilk, custShots])).sum) :=
  C1_calculate_price_adjustments.1 exampleItem exampleSelections
    [custSize, custMilk, custShots] rfl

/-! ### C2 — order payment validation -/

/-- C2.  For an order that carries a payment (given the frame conditions
the other blocks of `validate_order` impose: a nonempty item list and a
satisfied delivery/type coupling) validation accepts exactly when the
total is strictly positive and, whenever subtotal, tax and tip are all
present, `|subtotal + tax + tip − total| ≤ 0.01`; moreover an order whose
payment total is not strictly positive is rejected unconditionally,
whatever components, coupling or item list it has. -/
theorem C2_payment_validation :
    (∀ (order : Order) (items : List Item) (payment : Payment),
      order.payment = some payment → items ≠ [] → deliveryCouplingOk order →
      (validate_order order items = .ok () ↔
        (0 < payment.total ∧
          ∀ subtotal tax tip : ℚ, payment.subtotal = some subtotal →
            payment.tax = some tax → payment.tip = some tip →
            ratAbs (subtotal + tax + tip - payment.total) ≤ 1 / 100))) ∧
    (∀ (order : Order) (items : List Item) (payment : Payment),
      order.payment = some payment → payment.total ≤ 0 →
      validate_order order items ≠ .ok ()) := by
  constructor
  · intro order items payment hpay hitems hcoup
    rw [validate_order_coupling_ok order items hitems hcoup, hpay]
    exact paymentCheck_ok_iff payment
  · intro order items payment hpay hle h
    unfold validate_order at h
    by_cases hne : items.isEmpty = true
    · rw [if_pos hne] at h
      cases h
    · rw [if_neg hne, hpay] at h
      have hpc : paymentCheck payment =
          .error (.invalidFieldValue "payment total must be greater than zero") := by
        simp only [paymentCheck, if_pos hle]
      simp only [hpc] at h
      cases h

/-- Witness for C2: subtotal 10.00, tax 0.80, tip 2.00 with total 12.80 is
accepted; the same components with total 12.82 are rejected; total 0.00 is
rejected even with consistent components. -/
theorem C2_payment_validation_witness :
    validate_order
      { emptyOrder with
        payment := some (mkPayment (some 10) (some (4/5)) (some 2) (64/5)) }
      [plainItem] = .ok () ∧
    validate_order
      { emptyOrder with
        payment := some (mkPayment (some 10) (some (4/5)) (some 2) (641/50)) }
      [plainItem] ≠ .ok () ∧
    validate_order
      { emptyOrder with
        payment := some (mkPayment (some (-2)) (some 1) (some 1) 0) }
      [plainItem] ≠ .ok () := by
  refine ⟨?_, ?_, ?_⟩
  · refine (C2_payment_validation.1 _ _ _ rfl (by simp)
      (by constructor <;> simp [emptyOrder])).mpr ⟨by norm_num [mkPayment], ?_⟩
    intro subtotal tax tip hs ht hp
    simp only [mkPayment, Option.some.injEq] at hs ht hp
    subst hs; subst ht; subst hp
    norm_num [ratAbs, mkPayment]
  · intro h
    have := (C2_payment_validation.1 _ _ _ rfl (by simp)
      (by constructor <;> simp [emptyOrder])).mp h
    have h2 := this.2 10 (4/5) 2 rfl rfl rfl
    norm_num [ratAbs, mkPayment] at h2
  · exact C2_payment_validation.2 _ [plainItem] _ rfl (by norm_num [mkPayment])

/-! ### C3 — delivery/type coupling -/

/-- C3.  Under the frame conditions of the other blocks of
`validate_order` (nonempty item list, passing payment block), the
asymmetric delivery/type coupling holds: Delivery type without a delivery
payload is a missing-required-field error; Delivery type with a payload is
accepted; a payload with no type set is accepted; a non-Delivery type with
a payload is an invalid-field-value error. -/
theorem C3_delivery_coupling :
    ∀ (order : Order) (items : List Item),
      items ≠ [] → paymentStageOk order →
      ((order.type = some OrderType.delivery → order.delivery = none →
          validate_order order items =
            .error (.missingRequiredField
              "delivery information is required for delivery orders")) ∧
       (order.type = some OrderType.delivery → order.delivery.isSome = true →
          validate_order order items = .ok ()) ∧
       (order.type = none → order.delivery.isSome = true →
          validate_order order items = .ok ()) ∧
       (∀ t : OrderType, order.type = some t → t ≠ OrderType.delivery →
          order.delivery.isSome = true →
          validate_order order items =
            .error (.invalidFieldValue
              "order.type must be 'delivery' when delivery information is provided"))) := by
  intro order items hitems hpok
  have hne : ¬ (items.isEmpty = true) := by
    simp [List.isEmpty_iff, hitems]
  have hps : (match order.payment with
              | some payment => paymentCheck payment
              | none => Except.ok ()) = Except.ok () := by
    cases hp : order.payment with
    | none => rfl
    | some payment => exact hpok payment hp
  refine ⟨?_, ?_, ?_, ?_⟩
  · intro htyp hdel
    simp [validate_order, if_neg hne, hps, hdel, htyp, hitems]
  · intro htyp hsome
    obtain ⟨d, hd⟩ := Option.isSome_iff_exists.mp hsome
    simp [validate_order, if_neg hne, hps, hd, htyp, hitems]
  · intro htyp hsome
    obtain ⟨d, hd⟩ := Option.isSome_iff_exists.mp hsome
    simp [validate_order, if_neg hne, hps, hd, htyp, hitems]
  · intro t htyp ht hsome
    obtain ⟨d, hd⟩ := Option.isSome_iff_exists.mp hsome
    simp [validate_order, if_neg hne, hps, hd, htyp, ht, hitems]

/-- Witness for C3: a Delivery-typed order with a delivery payload and no
payment, over a nonempty item list, instantiating all four coupling
conjuncts (those whose case does not apply hold with a false premise). -/
theorem C3_delivery_coupling_witness :
    (deliveryOrder.type = some OrderType.delivery →
      deliveryOrder.delivery = none →
      validate_order deliveryOrder [plainItem] =
        .error (.missingRequiredField
          "delivery information is required for delivery orders")) ∧
    (deliveryOrder.type = some OrderType.delivery →
      deliveryOrder.delivery.isSome = true →
      validate_order deliveryOrder [plainItem] = .ok ()) ∧
    (deliveryOrder.type = none →
      deliveryOrder.delivery.isSome = true →
      validate_order deliveryOrder [plainItem] = .ok ()) ∧
    (∀ t : OrderType, deliveryOrder.type = some t →
      t ≠ OrderType.delivery →
      deliveryOrder.delivery.isSome = true →
      validate_order deliveryOrder [plainItem] =
        .error (.invalidFieldValue
          "order.type must be 'delivery' when delivery information is provided")) :=
  C3_delivery_coupling deliveryOrder [plainItem]
    (by simp)
    (by intro payment hp; simp [deliveryOrder] at hp)

/-! ### C4 — required-selection completeness gate -/

/-- If some required customization has no matching selection, the
completeness phase returns a missing-required-field error (for the first
such customization in list order). -/
theorem checkRequired_missing (selected : List SelectedCustomization)
    (available : List Customization) (c : Customization)
    (hmem : c ∈ available) (hreq : c.required = true)
    (hnosel : ∀ sel ∈ selected, sel.customization_id ≠ c.id) :
    ∃ cid, checkRequired selected available =
      some (.error (.missingRequiredField
        ("required customization " ++ cid ++ " not selected"))) := by
  induction available with
  | nil => cases hmem
  | cons c0 rest ih =>
    simp only [checkRequired]
    split
    · exact ⟨c0.id, rfl⟩
    · next hcond =>
      rcases List.mem_cons.mp hmem with rfl | hmem'
      · exfalso
        apply hcond
        have hany : selected.any (fun sel => sel.customization_id = c.id) = false := by
          rw [List.any_eq_false]
          intro sel hsel
          simp [hnosel sel hsel]
        simp [hreq, hany]
      · exact ih hmem'

/-- C4.  Whenever some customization flagged `required` has no selection
with its id, the Selected-Customization Validator reports a
missing-required-field error — for every selection list whatsoever, in
particular also when some selection would itself fail resolution,
membership or bounds checks: the completeness phase runs before the
per-selection correctness phase. -/
theorem C4_required_completeness :
    ∀ (selected : List SelectedCustomization) (available : List Customization),
      (∃ c ∈ available, c.required = true ∧
        ∀ sel ∈ selected, sel.customization_id ≠ c.id) →
      ∃ cid, validate_selected_customizations selected available =
        some (.error (.missingRequiredField
          ("required customization " ++ cid ++ " not selected"))) := by
  intro selected available h
  obtain ⟨c, hmem, hreq, hnosel⟩ := h
  obtain ⟨cid, hcr⟩ := checkRequired_missing selected available c hmem hreq hnosel
  exact ⟨cid, by simp [validate_selected_customizations, hcr]⟩

/-- Witness for C4: `size` is required and unselected while the only
selection references an id that would fail resolution in phase 2; the
missing-required error is still reported. -/
theorem C4_required_completeness_witness :
    ∃ cid, validate_selected_customizations
      [⟨"bogus", .string "x"⟩] [custSize] =
        some (.error (.missingRequiredField
          ("required customization " ++ cid ++ " not selected"))) :=
  C4_required_completeness [⟨"bogus", .string "x"⟩] [custSize]
    ⟨custSize, by simp, by simp [custSize], by
      intro sel hsel
      simp only [List.mem_singleton] at hsel
      subst hsel
      simp [custSize]⟩

/-! ### C5 — fail-fast ordering of the Definition Validator -/

/-- Fail-fast in list order: if every definition before `c` validates and
`c` yields an error, the validator reports `c`'s error, whatever follows. -/
theorem validate_customizations_first_error (pre : List Customization)
    (c : Customization) (post : List Customization) (e : OmsError)
    (hpre : ∀ c' ∈ pre, validateCustomization c' = some (.ok ()))
    (hc : validateCustomization c = some (.error e)) :
    validate_customizations (pre ++ c :: post) = some (.error e) := by
  induction pre with
  | nil => simp [validate_customizations, hc]
  | cons c0 rest ih =>
    have h0 : validateCustomization c0 = some (.ok ()) := hpre c0 (by simp)
    simp only [List.cons_append, validate_customizations, h0]
    exact ih (fun c' hc' => hpre c' (by simp [hc']))

/-- C5.  The Definition Validator is fail-fast in list order (first
conjunct: the first failing entry's error is returned, regardless of later
entries); within a Select entry, existence checks precede bounds checks
(second conjunct: a MultiSelect whose defaults contain a missing option id
reports the membership error whatever `min_selections`/`max_selections`
say); and on the concrete pair where entry 0 fails an existence check and
entry 1 fails a bounds check, entry 0's error is reported. -/
theorem C5_definition_validator_fail_fast :
    (∀ (pre : List Customization) (c : Customization)
        (post : List Customization) (e : OmsError),
      (∀ c' ∈ pre, validateCustomization c' = some (.ok ())) →
      validateCustomization c = some (.error e) →
      validate_customizations (pre ++ c :: post) = some (.error e)) ∧
    (∀ (c : Customization) (options : List CustomizationOption)
        (ids : List String) (missing : String),
      c.type = .multiSelect → c.options = some options →
      options.isEmpty = false → c.default = .stringArray ids →
      ids.find? (fun i => ! options.any (fun opt => opt.id = i)) = some missing →
      validateCustomization c = some (.error (.invalidFieldValue
        ("default value '" ++ missing ++
          "' not found in options for customization " ++ c.id)))) ∧
    (∃ msg, validateCustomization custBadBounds =
      some (.error (.invalidFieldValue msg))) ∧
    validate_customizations [custNoOptions, custBadBounds] =
      some (.error (.missingRequiredField "options for customization c0")) := by
  refine ⟨validate_customizations_first_error, ?_, ?_, ?_⟩
  · intro c options ids missing htype hopts hne hdef hfind
    simp [validateCustomization, htype, hopts, hne, hdef, hfind]
  · refine ⟨"default value " ++ toString (0 : ℚ) ++ " is less than min " ++
      toString (1 : ℚ) ++ " for customization " ++ "c1", ?_⟩
    simp [validateCustomization, custBadBounds]
  · have h0 : validateCustomization custNoOptions =
        some (.error (.missingRequiredField "options for customization c0")) := by
      simp [validateCustomization, custNoOptions]
    exact validate_customizations_first_error [] custNoOptions [custBadBounds] _
      (by simp) h0

/-- Witness for C5: the fail-fast conjunct applied to the concrete failing
pair, with the prefix-validity and head-error hypotheses discharged by
evaluation. -/
theorem C5_definition_validator_fail_fast_witness :
    validate_customizations ([] ++ custNoOptions :: [custBadBounds]) =
      some (.error (.missingRequiredField "options for customization c0")) :=
  C5_definition_validator_fail_fast.1 [] custNoOptions [custBadBounds] _
    (by simp) (by simp [validateCustomization, custNoOptions])

/-! ### C6 — total price computation -/

/-- C6.  `calculate_total_price` is the sum over items of unit price
(`calculated.item_price` when present — taking precedence over
`base_price` — else `base_price` defaulting to 0) times quantity
(defaulting to 1), returned only when strictly positive and `none`
otherwise; in particular a document whose items all lack both base and
calculated price yields `none`.  The function reads `calculated` but never
writes it: it is pure and `CalculatedValues` is never auto-derived. -/
theorem C6_calculate_total_price :
    (∀ document : OmsDocument,
      calculate_total_price document =
        (if 0 < (document.items.map
              (fun item => itemUnitPrice item * (item.quantity.getD 1 : ℚ))).sum
         then some ((document.items.map
              (fun item => itemUnitPrice item * (item.quantity.getD 1 : ℚ))).sum)
         else none)) ∧
    (∀ (item : Item) (cv : CalculatedValues), item.calculated = some cv →
      itemUnitPrice item = cv.item_price) ∧
    (∀ item : Item, item.calculated = none →
      itemUnitPrice item = item.base_price.getD 0) ∧
    (∀ document : OmsDocument,
      (∀ item ∈ document.items,
        item.base_price = none ∧ item.calculated = none) →
      calculate_total_price document = none) := by
  refine ⟨?_, ?_, ?_, ?_⟩
  · intro document
    simp [calculate_total_price, foldl_add_eq_sum]
  · intro item cv h
    simp [itemUnitPrice, h]
  · intro item h
    simp [itemUnitPrice, h]
  · intro document h
    have hsum : (document.items.map
        (fun item => itemUnitPrice item * (item.quantity.getD 1 : ℚ))).sum = 0 := by
      apply List.sum_eq_zero
      intro x hx
      obtain ⟨item, hmem, rfl⟩ := List.mem_map.mp hx
      obtain ⟨hb, hc⟩ := h item hmem
      simp [itemUnitPrice, hb, hc]
    simp [calculate_total_price, foldl_add_eq_sum, hsum]

/-- Witness for C6: a document whose only item lacks both base price and
calculated price totals to the "no price" sentinel. -/
theorem C6_calculate_total_price_witness :
    calculate_total_price { exampleDoc with items := [pricelessItem] } = none :=
  C6_calculate_total_price.2.2.2 _ (by
    intro item hmem
    rw [List.mem_singleton] at hmem
    subst hmem
    exact ⟨rfl, rfl⟩)

/-! ### C7 — parse/validate composition at the construction boundary -/

/-- C7.  `OmsDocument::from_json` hands a document to the caller only if
`validate_document` succeeds on it, for every structural parser: a
parseable but semantically invalid document is rejected; in particular a
parsed document with an empty item list yields the undetailed validation
failure. -/
theorem C7_from_json_validates :
    (∀ (parse : String → Except OmsError OmsDocument) (json : String)
        (document : OmsDocument),
      from_json parse json = some (.ok document) →
      validate_document document = some (.ok ())) ∧
    (∀ (parse : String → Except OmsError OmsDocument) (json : String)
        (document : OmsDocument),
      parse json = .ok document → document.items = [] →
      from_json parse json = some (.error .validationError)) := by
  constructor
  · intro parse json document h
    simp only [from_json] at h
    split at h
    · simp at h
    · split at h
      · next hv =>
        simp only [Option.some.injEq, Except.ok.injEq] at h
        subst h
        exact hv
      · simp at h
      · simp at h
  · intro parse json document hp hitems
    have hv : validate_document document = some (.error .validationError) := by
      simp [validate_document, hitems]
    simp [from_json, hp, hv]

/-- Witness for C7: a parser that returns the valid example document;
`from_json` succeeds on it, and the theorem recovers that the document
passed validation. -/
theorem C7_from_json_validates_witness :
    validate_document exampleDoc = some (.ok ()) :=
  C7_from_json_validates.1 (fun _ => .ok exampleDoc) "" exampleDoc (by
    have hval : validate_document exampleDoc = some (.ok ()) := by
      simp [validate_document, validateItems, validateItem, exampleDoc, plainItem]
    simp [from_json, hval])

/-! ### C8 — deep-link round trip -/

/-- C8.  Building an "order" deep link for vendor `v1`, item `i1`,
location `l1` and no customization id yields exactly
`omenu://order?v=v1&l=l1&i=i1`; parsing that string back yields the map
holding exactly the pairs action=order (taken from the path segment),
v=v1, l=l1 and i=i1, each query pair included verbatim as a string. -/
theorem C8_deep_link_round_trip :
    create_order_url "v1" "i1" (some "l1") none =
      .ok "omenu://order?v=v1&l=l1&i=i1" ∧
    parse_oms_url "omenu://order?v=v1&l=l1&i=i1" =
      .ok [("action", "order"), ("v", "v1"), ("l", "l1"), ("i", "i1")] ∧
    lookupParam [("action", "order"), ("v", "v1"), ("l", "l1"), ("i", "i1")]
      "action" = some "order" ∧
    lookupParam [("action", "order"), ("v", "v1"), ("l", "l1"), ("i", "i1")]
      "v" = some "v1" ∧
    lookupParam [("action", "order"), ("v", "v1"), ("l", "l1"), ("i", "i1")]
      "l" = some "l1" ∧
    lookupParam [("action", "order"), ("v", "v1"), ("l", "l1"), ("i", "i1")]
      "i" = some "i1" := by
  refine ⟨?_, ?_, ?_, ?_, ?_, ?_⟩ <;> decide

/-! ### C9 — totality: no panic is reachable -/

/-- The Definition Validator's per-entry check never hits the
`unreachable!` arm: the inner re-match on `customization.r#type` sits
inside the `SingleSelect | MultiSelect` arm of a match on the same
scrutinee. -/
theorem validateCustomization_ne_none (c : Customization) :
    validateCustomization c ≠ none := by
  unfold validateCustomization
  repeat' split
  all_goals simp_all

end OMS

namespace OMS

theorem validate_customizations_ne_none (cs : List Customization) :
    validate_customizations cs ≠ none := by
  induction cs with
  | nil => simp [validate_customizations]
  | cons c rest ih =>
    simp only [validate_customizations]
    split
    · exact ih
    · exact validateCustomization_ne_none c

theorem validate_customizations_mem_ok {cs : List Customization}
    (h : validate_customizations cs = some (.ok ())) :
    ∀ c ∈ cs, validateCustomization c = some (.ok ()) := by
  induction cs with
  | nil => intro c hc; cases hc
  | cons c0 rest ih =>
    intro c hc
    simp only [validate_customizations] at h
    split at h
    · next h0 =>
      rcases List.mem_cons.mp hc with rfl | hmem
      · exact h0
      · exact ih h c hmem
    · next x hnot => exact absurd h hnot

theorem validateCustomization_select_options {c : Customization}
    (h : validateCustomization c = some (.ok ()))
    (htype : c.type = CustomizationType.singleSelect ∨
      c.type = CustomizationType.multiSelect) :
    ∃ options, c.options = some options ∧ options ≠ [] := by
  cases hopt : c.options with
  | none =>
    exfalso
    rcases htype with ht | ht <;> simp [validateCustomization, ht, hopt] at h
  | some options =>
    refine ⟨options, rfl, ?_⟩
    intro hnil
    subst hnil
    rcases htype with ht | ht <;> simp [validateCustomization, ht, hopt] at h

theorem lookupById_mem {cs : List Customization} {cid : String}
    {c : Customization} (h : lookupById cs cid = some c) : c ∈ cs :=
  List.mem_reverse.mp (List.mem_of_find?_eq_some h)

theorem checkSelection_ne_none {available : List Customization}
    (hav : ∀ c ∈ available, validateCustomization c = some (.ok ()))
    (sel : SelectedCustomization) :
    checkSelection available sel ≠ none := by
  unfold checkSelection
  cases hl : lookupById available sel.customization_id with
  | none => simp
  | some c =>
    have hok := hav c (lookupById_mem hl)
    cases hty : c.type <;> cases hsel : sel.selection <;>
      dsimp only <;> rw [hty] <;> dsimp only <;>
      (repeat' split) <;>
      try simp
    all_goals (
      obtain ⟨options, ho, hone⟩ :=
        validateCustomization_select_options hok (by simp [hty])
      simp_all)

theorem checkRequired_ne_none (selected : List SelectedCustomization)
    (available : List Customization) :
    checkRequired selected available ≠ none := by
  induction available with
  | nil => simp [checkRequired]
  | cons c rest ih =>
    simp only [checkRequired]
    split
    · simp
    · exact ih

theorem validateSelections_ne_none {available : List Customization}
    (hav : ∀ c ∈ available, validateCustomization c = some (.ok ()))
    (selected : List SelectedCustomization) :
    validateSelections available selected ≠ none := by
  induction selected with
  | nil => simp [validateSelections]
  | cons sel rest ih =>
    simp only [validateSelections]
    split
    · exact ih
    · exact checkSelection_ne_none hav sel

theorem validate_selected_ne_none {available : List Customization}
    (hav : ∀ c ∈ available, validateCustomization c = some (.ok ()))
    (selected : List SelectedCustomization) :
    validate_selected_customizations selected available ≠ none := by
  simp only [validate_selected_customizations]
  split
  · exact validateSelections_ne_none hav selected
  · exact checkRequired_ne_none selected available

theorem validateItem_ne_none (item : Item) : validateItem item ≠ none := by
  simp only [validateItem]
  split
  · next hstage =>
    split
    · next selected hsel =>
      split
      · next available hcust =>
        rw [hcust] at hstage
        dsimp only at hstage
        exact validate_selected_ne_none
          (validate_customizations_mem_ok hstage) selected
      · simp
    · simp
  · next x hnot =>
    split
    · exact validate_customizations_ne_none _
    · simp

theorem validateItems_ne_none (items : List Item) : validateItems items ≠ none := by
  induction items with
  | nil => simp [validateItems]
  | cons item rest ih =>
    simp only [validateItems]
    split
    · exact ih
    · exact validateItem_ne_none item

/-- C9.  `validate_document` is total: for every document it returns a
value (success or a typed error) and never panics — the modelled panic
outcome `none` (the `unwrap`s of the options list in the
Selected-Customization Validator and the `unreachable!` in the Definition
Validator) is unreachable, because per item the definition validator runs
first and rejects any Select-kind customization whose options list is
absent or empty before the selection validator dereferences it. -/
theorem C9_validate_document_total :
    ∀ document : OmsDocument, (validate_document document).isSome = true := by
  intro document
  simp only [validate_document]
  split
  · simp
  · split
    · split
      · split <;> simp
      · simp
    · have hne := validateItems_ne_none document.items
      cases hv : validateItems document.items with
      | none => exact absurd hv hne
      | some v => simp [hv]

theorem validateItem_offending {item : Item}
    (hsel : item.selected_customizations.isSome = true)
    (hcust : item.customizations = none) :
    validateItem item = some (.error .validationError) := by
  obtain ⟨selected, hs⟩ := Option.isSome_iff_exists.mp hsel
  simp [validateItem, hcust, hs]

theorem validateItems_offending {items : List Item}
    (h : ∃ item ∈ items, item.selected_customizations.isSome = true ∧
      item.customizations = none) :
    ∃ e, validateItems items = some (.error e) := by
  induction items with
  | nil =>
    obtain ⟨item, hmem, _⟩ := h
    cases hmem
  | cons it rest ih =>
    obtain ⟨item, hmem, hoff⟩ := h
    rcases List.mem_cons.mp hmem with rfl | hmem2
    · refine ⟨.validationError, ?_⟩
      simp only [validateItems, validateItem_offending hoff.1 hoff.2]
    · cases hv : validateItem it with
      | none => exact absurd hv (validateItem_ne_none it)
      | some r =>
        cases r with
        | ok u =>
          cases u
          obtain ⟨e, he⟩ := ih ⟨item, hmem2, hoff⟩
          refine ⟨e, ?_⟩
          simp only [validateItems, hv]
          exact he
        | error e =>
          refine ⟨e, ?_⟩
          simp only [validateItems, hv]

/-- C10.  A document containing an item whose `selected_customizations`
field is present (even as an empty list) while its `customizations` field
is absent never validates: `validate_document` returns an error, and the
offending item itself always produces the undetailed validation failure
(`OmsError::ValidationError`) when the item loop reaches it. -/
theorem C10_selections_without_customizations :
    (∀ document : OmsDocument,
      (∃ item ∈ document.items, item.selected_customizations.isSome = true ∧
        item.customizations = none) →
      ∃ e, validate_document document = some (.error e)) ∧
    (∀ item : Item, item.selected_customizations.isSome = true →
      item.customizations = none →
      validateItem item = some (.error .validationError)) := by
  constructor
  · intro document h
    have hne : document.items ≠ [] := by
      obtain ⟨item, hmem, _⟩ := h
      intro hnil
      rw [hnil] at hmem
      cases hmem
    have hempty : ¬ (document.items.isEmpty = true) := by
      simp [List.isEmpty_iff, hne]
    obtain ⟨e, he⟩ := validateItems_offending h
    refine ⟨e, ?_⟩
    simp only [validate_document, if_neg hempty, he]
  · intro item hsel hcust
    exact validateItem_offending hsel hcust

/-- Witness for C10: a one-item document whose item carries
`selected_customizations = some []` and `customizations = none` fails
validation. -/
theorem C10_selections_without_customizations_witness :
    ∃ e, validate_document { exampleDoc with items := [offendingItem] } =
      some (.error e) :=
  C10_selections_without_customizations.1 _
    ⟨offendingItem, by simp, rfl, rfl⟩

end OMS
